import Mathlib

/-!
Shallow embedding of the chatbox_gradio backend (Flask routes in backend.py,
AI service in ai.py) and of the taiga interactive agent loop (taiga/main.py).
Python dynamic values appearing in JSON bodies are modelled by `JVal`;
environment variables by `Option String` fields; exceptions by `Except`
with an error datatype distinguishing ValueError from other exceptions,
mirroring the two except-clauses of the chat route.  Provider SDK calls
(chain.invoke, executor.ainvoke) are external: they are passed in as
oracle functions.
-/

namespace CG

/-- JSON-like dynamic values usable in a request body. -/
inductive JVal where
  | str : String → JVal
  | num : Int → JVal
  | bool : Bool → JVal
  | null : JVal
deriving DecidableEq

/-- Python exceptions relevant to the backend: the chat route catches
ValueError (400) separately from every other Exception (500). -/
inductive PyErr where
  | valueError : String → PyErr
  | attributeError : String → PyErr
  | exception : String → PyErr
deriving DecidableEq

/-- str(e): the message carried by the exception. -/
def PyErr.msg : PyErr → String
  | .valueError m => m
  | .attributeError m => m
  | .exception m => m

/-- Process environment: only the variables the embedded code reads. -/
structure Env where
  OPENAI_API_KEY : Option String
  ANTHROPIC_API_KEY : Option String
  OLLAMA_BASE_URL : Option String
  OLLAMA_DEFAULT_MODEL : Option String
  OPENAI_BASE_URL : Option String
deriving DecidableEq

/-- Python truthiness of os.getenv results: None and the empty string are
falsy, every other string is truthy. -/
def pyTruthy : Option String → Bool
  | none => false
  | some s => !(s == "")

/-- Python truthiness of a JSON value. -/
def pyTruthyJ : JVal → Bool
  | .str s => !(s == "")
  | .num n => !(n == 0)
  | .bool b => b
  | .null => false

/-- Python str() of a JSON value, as used inside an f-string. -/
def pyStrJ : JVal → String
  | .str s => s
  | .num n => toString n
  | .bool b => if b then "True" else "False"
  | .null => "None"

/-- Python x or d where x is an optional JSON value (None when absent). -/
def jOr (m : Option JVal) (d : JVal) : JVal :=
  match m with
  | none => d
  | some v => if pyTruthyJ v then v else d

/-- Python str.lower (ASCII model), written over the character list so
that it evaluates by kernel reduction. -/
def pyLower (s : String) : String :=
  String.mk (s.toList.map Char.toLower)

/-- Characters stripped by Python str.strip (ASCII whitespace). -/
def pyIsSpace (c : Char) : Bool :=
  c == ' ' || c == '\t' || c == '\n' || c == '\r' ||
  c == Char.ofNat 11 || c == Char.ofNat 12

/-- Python str.strip: remove leading and trailing whitespace. -/
def pyStrip (s : String) : String :=
  let l := s.toList.dropWhile pyIsSpace
  String.mk ((l.reverse.dropWhile pyIsSpace).reverse)

/-- value.strip() on a dynamic value: only strings have .strip. -/
def jvalStrip : JVal → Except PyErr String
  | .str s => .ok (pyStrip s)
  | _ => .error (.attributeError "object has no attribute strip")

/-- value.lower() on a dynamic value: only strings have .lower. -/
def jvalLower : JVal → Except PyErr String
  | .str s => .ok (pyLower s)
  | _ => .error (.attributeError "object has no attribute lower")

/-- The ModelProvider enum of ai.py. -/
inductive ModelProvider where
  | AUTO
  | GPT
  | CLAUDE
deriving DecidableEq

/-- provider.value strings. -/
def ModelProvider.value : ModelProvider → String
  | .AUTO => "auto"
  | .GPT => "gpt"
  | .CLAUDE => "claude"

/-- ModelProvider(s): the enum constructor lookup by value. -/
def parseModelProvider (s : String) : Option ModelProvider :=
  if s == "auto" then some .AUTO
  else if s == "gpt" then some .GPT
  else if s == "claude" then some .CLAUDE
  else none

/-- The configuration dictionary built by AIService._setup_config. -/
structure Config where
  ollamaBaseUrl : String
  ollamaModel : String
  openaiKey : Option String
  openaiBaseUrl : String
  openaiModel : String
  anthropicKey : Option String
  anthropicModel : String
deriving DecidableEq

/-- os.getenv reads, with the defaults hard-coded in _setup_config. -/
def setupConfig (env : Env) : Config :=
  { ollamaBaseUrl := env.OLLAMA_BASE_URL.getD "http://localhost:11434"
    ollamaModel := env.OLLAMA_DEFAULT_MODEL.getD "qwen3:8b"
    openaiKey := env.OPENAI_API_KEY
    openaiBaseUrl := env.OPENAI_BASE_URL.getD "https://api.openai.com/v1"
    openaiModel := "gpt-3.5-turbo"
    anthropicKey := env.ANTHROPIC_API_KEY
    anthropicModel := "claude-3-haiku-20240307" }

/-- Default prompt template of create_prompt_template. -/
def defaultTemplate : String := "Human: {question}\n\nAssistant:"

/-- A constructed RunnableSequence, identified by the configuration the
create_*_chain functions pass to the SDK constructors. -/
structure Chain where
  llmKind : String
  modelName : JVal
  baseUrl : Option String
  apiKey : Option String
  template : String
deriving DecidableEq

/-- create_ollama_chain: never checks a key; model falls back to config. -/
def create_ollama_chain (cfg : Config) (model : Option JVal) : Chain :=
  { llmKind := "ollama"
    modelName := jOr model (.str cfg.ollamaModel)
    baseUrl := some cfg.ollamaBaseUrl
    apiKey := none
    template := defaultTemplate }

/-- create_openai_chain: raises ValueError when the configured key is falsy. -/
def create_openai_chain (cfg : Config) (model : Option JVal) : Except PyErr Chain :=
  if pyTruthy cfg.openaiKey then
    .ok { llmKind := "openai"
          modelName := jOr model (.str cfg.openaiModel)
          baseUrl := some cfg.openaiBaseUrl
          apiKey := cfg.openaiKey
          template := defaultTemplate }
  else
    .error (.valueError "OpenAI API key not configured. Please set OPENAI_API_KEY environment variable.")

/-- create_anthropic_chain: raises ValueError when the configured key is falsy. -/
def create_anthropic_chain (cfg : Config) (model : Option JVal) : Except PyErr Chain :=
  if pyTruthy cfg.anthropicKey then
    .ok { llmKind := "anthropic"
          modelName := jOr model (.str cfg.anthropicModel)
          baseUrl := none
          apiKey := cfg.anthropicKey
          template := defaultTemplate }
  else
    .error (.valueError "Anthropic API key not configured. Please set ANTHROPIC_API_KEY environment variable.")

/-- The AIService instance state: the chains cache plus the config. -/
structure AIService where
  chains : List (String × Chain)
  config : Config
deriving DecidableEq

/-- AIService.__init__. -/
def initService (env : Env) : AIService :=
  { chains := [], config := setupConfig env }

/-- The cache key built in get_chain via an f-string. -/
def cacheKey (provider : ModelProvider) (model : Option JVal) : String :=
  provider.value ++ "_" ++ pyStrJ (jOr model (.str "default"))

/-- get_chain: return the cached chain for the key, or construct, store and
return a new one; construction may raise (missing API key). -/
def get_chain (svc : AIService) (provider : ModelProvider) (model : Option JVal) :
    Except PyErr (Chain × AIService) :=
  let key := cacheKey provider model
  match svc.chains.lookup key with
  | some c => .ok (c, svc)
  | none =>
    match provider with
    | .AUTO =>
      let c := create_ollama_chain svc.config model
      .ok (c, { svc with chains := (key, c) :: svc.chains })
    | .GPT =>
      match create_openai_chain svc.config model with
      | .error e => .error e
      | .ok c => .ok (c, { svc with chains := (key, c) :: svc.chains })
    | .CLAUDE =>
      match create_anthropic_chain svc.config model with
      | .error e => .error e
      | .ok c => .ok (c, { svc with chains := (key, c) :: svc.chains })

/-- A value returned by chain.invoke: an object with .content, a str,
or something else rendered through str(). -/
inductive ChainResp where
  | withContent : String → ChainResp
  | strResp : String → ChainResp
  | other : String → ChainResp
deriving DecidableEq

/-- The string invoke_model extracts from a chain response. -/
def respToStr : ChainResp → String
  | .withContent s => s
  | .strResp s => s
  | .other s => s

/-- An external model call: a chain and the prompt either produce a
response object or raise with a message. -/
def ChainOracle : Type := Chain → String → Except String ChainResp

/-- Provider-specific troubleshooting text appended by invoke_model. -/
def troubleshooting : ModelProvider → String
  | .AUTO => "\n\nTroubleshooting:\n- Make sure Ollama is running (ollama serve)\n- Check if model is available (ollama list)"
  | .GPT => "\n\nTroubleshooting:\n- Check OpenAI API key\n- Verify internet connection\n- Check API quotas"
  | .CLAUDE => "\n\nTroubleshooting:\n- Check Anthropic API key\n- Verify internet connection\n- Check API quotas"

/-- The wrapped message of the Exception re-raised by invoke_model. -/
def wrapMsg (provider : ModelProvider) (orig : String) : String :=
  "Error with " ++ provider.value ++ ": " ++ orig ++ troubleshooting provider

instance {ε α : Type} [DecidableEq ε] [DecidableEq α] : DecidableEq (Except ε α) := fun a b =>
  match a, b with
  | .error e, .error f =>
    if h : e = f then isTrue (by rw [h]) else isFalse (by intro hh; cases hh; exact h rfl)
  | .error _, .ok _ => isFalse (by intro h; cases h)
  | .ok _, .error _ => isFalse (by intro h; cases h)
  | .ok x, .ok y =>
    if h : x = y then isTrue (by rw [h]) else isFalse (by intro hh; cases hh; exact h rfl)

/-- Outcome of invoke_model: the returned string or the raised message,
the service state afterwards, and how many times chain.invoke ran. -/
structure InvokeResult where
  result : Except String String
  svc : AIService
  invocations : Nat
deriving DecidableEq

/-- invoke_model: get or build the chain, invoke it once, normalise the
response; any exception is wrapped with provider troubleshooting text and
re-raised (as a plain Exception). -/
def invoke_model (svc : AIService) (prompt : String) (provider : ModelProvider)
    (model : Option JVal) (oracle : ChainOracle) : InvokeResult :=
  match get_chain svc provider model with
  | .error e =>
    { result := .error (wrapMsg provider e.msg), svc := svc, invocations := 0 }
  | .ok (c, svc2) =>
    match oracle c prompt with
    | .error e =>
      { result := .error (wrapMsg provider e), svc := svc2, invocations := 1 }
    | .ok r =>
      { result := .ok (respToStr r), svc := svc2, invocations := 1 }

/-- get_ai_response: parse the provider string (ValueError when invalid)
then delegate to invoke_model; invoke_model failures surface as plain
Exceptions. -/
def get_ai_response (svc : AIService) (oracle : ChainOracle) (prompt : String)
    (model_provider : String) (specific_model : Option JVal) :
    (Except PyErr String) × AIService :=
  match parseModelProvider (pyLower model_provider) with
  | none => (.error (.valueError (pyLower model_provider ++ " is not a valid ModelProvider")), svc)
  | some p =>
    let r := invoke_model svc prompt p specific_model oracle
    match r.result with
    | .error m => (.error (.exception m), r.svc)
    | .ok s => (.ok s, r.svc)

/-- An HTTP response: status code plus JSON object body. -/
structure HttpResponse where
  statusCode : Nat
  body : List (String × JVal)
deriving DecidableEq

/-- The error payload shape used by every failure branch of the chat route. -/
def errBody (msg : String) : List (String × JVal) :=
  [("error", .str msg), ("status", .str "error")]

def mk400 (msg : String) : HttpResponse :=
  { statusCode := 400, body := errBody msg }

/-- A POST /api/chat request: whether the body parsed as JSON, and the
parsed JSON object. -/
structure ChatRequest where
  is_json : Bool
  body : List (String × JVal)
deriving DecidableEq

/-- dict.get: absent keys and JSON null both come back as Python None. -/
def pyGet (data : List (String × JVal)) (key : String) : Option JVal :=
  match data.lookup key with
  | none => none
  | some .null => none
  | some v => some v

/-- Providers accepted by the chat route. -/
def validProviders : List String := ["auto", "gpt", "claude"]

/-- The body of the try-block of the chat route, for a JSON body `data`:
early validation returns are ok-results; exceptions propagate as errors
together with the (possibly mutated) service state. -/
def chatTry (svc : AIService) (oracle : ChainOracle) (data : List (String × JVal)) :
    (Except PyErr HttpResponse) × AIService :=
  match data.lookup "prompt" with
  | none => (.ok (mk400 "Prompt is required and cannot be empty"), svc)
  | some pv =>
    match jvalStrip pv with
    | .error e => (.error e, svc)
    | .ok ps =>
      if ps == "" then (.ok (mk400 "Prompt is required and cannot be empty"), svc)
      else
        match data.lookup "model" with
        | none => (.ok (mk400 "Model is required"), svc)
        | some mv =>
          match jvalLower mv with
          | .error e => (.error e, svc)
          | .ok ml =>
            let specific := pyGet data "specific_model"
            if validProviders.contains ml then
              match get_ai_response svc oracle ps ml specific with
              | (.error e, svc2) => (.error e, svc2)
              | (.ok response, svc2) =>
                (.ok { statusCode := 200
                       body := [("response", .str response),
                                ("model_used", .str ml),
                                ("specific_model", (specific.getD .null)),
                                ("status", .str "success")] }, svc2)
            else
              (.ok (mk400 "Invalid model provider. Must be one of: [auto, gpt, claude]"), svc)

/-- The chat route: non-JSON requests get 400; ValueError from the try
block gets 400; every other exception gets 500 with a wrapped message. -/
def chat (svc : AIService) (oracle : ChainOracle) (req : ChatRequest) :
    HttpResponse × AIService :=
  if req.is_json then
    match chatTry svc oracle req.body with
    | (.ok resp, svc2) => (resp, svc2)
    | (.error (.valueError m), svc2) => (mk400 m, svc2)
    | (.error e, svc2) =>
      ({ statusCode := 500
         body := errBody ("Failed to process chat request: " ++ e.msg) }, svc2)
  else
    (mk400 "Request must be JSON", svc)

/-- One entry of the GET /api/models response; `available` is `none` when
the JSON object carries no such key at all. -/
structure ModelEntry where
  id : String
  name : String
  llmProvider : String
  description : String
  requires_api_key : Bool
  available : Option Bool
deriving DecidableEq

/-- The models list returned by GET /api/models. -/
def get_available_models (env : Env) : List ModelEntry :=
  [ { id := "auto", name := "Auto (Ollama)", llmProvider := "ollama"
      description := "Local Ollama models (qwen3:8b)"
      requires_api_key := false, available := none },
    { id := "gpt", name := "GPT (OpenAI)", llmProvider := "openai"
      description := "OpenAI GPT models"
      requires_api_key := true, available := some (pyTruthy env.OPENAI_API_KEY) },
    { id := "claude", name := "Claude (Anthropic)", llmProvider := "anthropic"
      description := "Anthropic Claude models"
      requires_api_key := true, available := some (pyTruthy env.ANTHROPIC_API_KEY) } ]

end CG

namespace Taiga

/-- A LangChain message in the chat history of interactive_mode.  The
content of a HumanMessage is the value of the user_input variable, which
is None when input() itself raised before assigning it. -/
inductive Msg where
  | human : Option String → Msg
  | ai : String → Msg
deriving DecidableEq

/-- Whether the loop breaks or continues after an iteration. -/
inductive LoopCtl where
  | brk
  | cont
deriving DecidableEq

/-- What drives one iteration of the while-loop: a KeyboardInterrupt
(at the input call or while awaiting the executor), an exception raised
by input() itself (user_input still None), or a line of input together
with the outcome the executor would produce for it. -/
inductive LoopEvent where
  | keyboardInterrupt : LoopEvent
  | inputRaise : String → LoopEvent
  | line : String → Except String String → LoopEvent
deriving DecidableEq

/-- The exit words checked against the lowered stripped input. -/
def quitWords : List String := ["quit", "exit", "q"]

/-- One iteration of the interactive_mode while-loop, acting on the chat
history: returns the new history and whether the loop continues. -/
def loopStep (h : List Msg) (ev : LoopEvent) : List Msg × LoopCtl :=
  match ev with
  | .keyboardInterrupt => (h, .brk)
  | .inputRaise m => (h ++ [Msg.human none, Msg.ai ("Got error: " ++ m)], .cont)
  | .line s res =>
    let u := CG.pyStrip s
    if quitWords.contains (CG.pyLower u) then (h, .brk)
    else if u == "" then (h, .cont)
    else
      match res with
      | .ok out => (h ++ [Msg.human (some u), Msg.ai out], .cont)
      | .error e => (h ++ [Msg.human (some u), Msg.ai ("Got error: " ++ e)], .cont)

end Taiga

namespace CG

/-- An environment with no variables set. -/
def envNone : Env :=
  { OPENAI_API_KEY := none, ANTHROPIC_API_KEY := none
    OLLAMA_BASE_URL := none, OLLAMA_DEFAULT_MODEL := none
    OPENAI_BASE_URL := none }

/-- An environment with both API keys set to non-empty strings. -/
def envFull : Env :=
  { OPENAI_API_KEY := some "sk-test", ANTHROPIC_API_KEY := some "ak-test"
    OLLAMA_BASE_URL := none, OLLAMA_DEFAULT_MODEL := none
    OPENAI_BASE_URL := none }

/-- An environment whose OpenAI key is set to the empty string. -/
def envEmptyKey : Env :=
  { OPENAI_API_KEY := some "", ANTHROPIC_API_KEY := none
    OLLAMA_BASE_URL := none, OLLAMA_DEFAULT_MODEL := none
    OPENAI_BASE_URL := none }

/-- An oracle whose provider call always succeeds with a fixed reply. -/
def oracleOk : ChainOracle := fun _ _ => .ok (.strResp "hello")

/-- An oracle whose provider call always raises. -/
def oracleDown : ChainOracle := fun _ _ => .error "connection refused"

/-- A well-formed chat request for the auto provider. -/
def reqAuto : ChatRequest :=
  { is_json := true, body := [("prompt", .str "hi"), ("model", .str "auto")] }

/-- A request whose prompt is a number, not a string. -/
def reqNumPrompt : ChatRequest :=
  { is_json := true, body := [("prompt", .num 42), ("model", .str "auto")] }

/-- A request with an upper-case model value. -/
def reqUpperModel : ChatRequest :=
  { is_json := true, body := [("prompt", .str "hi"), ("model", .str "AUTO")] }

/-- A request with a numeric model value and no prompt key. -/
def reqNumModelOnly : ChatRequest :=
  { is_json := true, body := [("model", .num 42)] }

/-- A well-formed chat request for the gpt provider. -/
def reqGpt : ChatRequest :=
  { is_json := true, body := [("prompt", .str "hi"), ("model", .str "gpt")] }

/-- Shorthand: environment variable read by the availability check of a
cloud provider (AUTO reads none). -/
def envKey (env : Env) : ModelProvider → Option String
  | .AUTO => none
  | .GPT => env.OPENAI_API_KEY
  | .CLAUDE => env.ANTHROPIC_API_KEY

/-- The environment variable name the error message for a missing key of
this provider refers to. -/
def missingKeyName : ModelProvider → String
  | .AUTO => ""
  | .GPT => "OPENAI_API_KEY"
  | .CLAUDE => "ANTHROPIC_API_KEY"

/-- Validation predicate of the chat route for string-typed bodies: a
prompt that strips to non-empty and a model that lowers into the accepted
provider list. -/
def validBody (data : List (String × JVal)) : Prop :=
  (∃ s, data.lookup "prompt" = some (.str s) ∧ pyStrip s ≠ "") ∧
  (∃ s, data.lookup "model" = some (.str s) ∧ validProviders.contains (pyLower s) = true)

/-- The AIService state right after startup with both keys configured. -/
def svcFull : AIService := initService envFull

/-- The chain the auto provider builds with no override under envFull. -/
def autoChainFull : Chain := create_ollama_chain (setupConfig envFull) none

/-- A service state whose cache already holds the default auto chain. -/
def svcFullCached : AIService :=
  { svcFull with chains := [("auto_default", autoChainFull)] }

/-- The provider-layer outcome the chat route observes after validation:
get_ai_response applied to the stripped prompt, lowered model and the
specific_model field of the body. -/
def providerOutcome (svc : AIService) (oracle : ChainOracle)
    (data : List (String × JVal)) : (Except PyErr String) × AIService :=
  get_ai_response svc oracle
    (match data.lookup "prompt" with
     | some (.str s) => pyStrip s
     | _ => "")
    (match data.lookup "model" with
     | some (.str s) => pyLower s
     | _ => "")
    (pyGet data "specific_model")

end CG

namespace CG

theorem pyTruthy_iff (o : Option String) :
    pyTruthy o = true ↔ ∃ s, o = some s ∧ s ≠ "" := by
  cases o with
  | none => simp [pyTruthy]
  | some s => simp [pyTruthy]

theorem pyStrip_of_all_space {s : String} (h : s.toList.all pyIsSpace = true) :
    pyStrip s = "" := by
  unfold pyStrip
  have h1 : s.toList.dropWhile pyIsSpace = [] := by
    rw [List.dropWhile_eq_nil_iff]
    intro x hx
    exact List.all_eq_true.mp h x hx
  rw [h1]
  rfl

/-- C2, counterexample.  With OPENAI_API_KEY set to the empty string, the
models list maps to available flags [none, some false, some false]: the
auto entry carries no available flag at all, and the gpt flag is false
even though the variable is set. -/
theorem c2_models_counterexample :
    (get_available_models envEmptyKey).map ModelEntry.available =
      [none, some false, some false] ∧
    envEmptyKey.OPENAI_API_KEY.isSome = true := ⟨rfl, rfl⟩

/-- C2, amended.  Every GET /api/models response lists exactly the three
providers auto, gpt, claude in order; the gpt and claude entries carry an
available flag that is true exactly when the corresponding API key
environment variable is set to a non-empty string; the auto entry carries
no available flag (it requires no API key). -/
theorem c2_models_flags (env : Env) :
    (get_available_models env).map ModelEntry.id = ["auto", "gpt", "claude"] ∧
    (get_available_models env).length = 3 ∧
    (get_available_models env).map ModelEntry.available =
      [none, some (pyTruthy env.OPENAI_API_KEY), some (pyTruthy env.ANTHROPIC_API_KEY)] ∧
    (get_available_models env).map ModelEntry.requires_api_key = [false, true, true] ∧
    (pyTruthy env.OPENAI_API_KEY = true ↔ ∃ s, env.OPENAI_API_KEY = some s ∧ s ≠ "") ∧
    (pyTruthy env.ANTHROPIC_API_KEY = true ↔ ∃ s, env.ANTHROPIC_API_KEY = some s ∧ s ≠ "") :=
  ⟨rfl, rfl, rfl, rfl, pyTruthy_iff _, pyTruthy_iff _⟩

theorem c2_models_flags_witness :
    (get_available_models envFull).map ModelEntry.available =
      [none, some true, some true] := by
  have h := c2_models_flags envFull
  rw [h.2.2.1]
  rfl

/-- C10.  An empty-string model override is indistinguishable from no
override: the cache key is the same, get_chain behaves identically, and
each create function falls back to the configured default model. -/
theorem c10_empty_model_default (svc : AIService) (provider : ModelProvider) (cfg : Config) :
    cacheKey provider (some (.str "")) = cacheKey provider none ∧
    get_chain svc provider (some (.str "")) = get_chain svc provider none ∧
    (create_ollama_chain cfg (some (.str ""))).modelName = .str cfg.ollamaModel ∧
    create_ollama_chain cfg (some (.str "")) = create_ollama_chain cfg none ∧
    create_openai_chain cfg (some (.str "")) = create_openai_chain cfg none ∧
    create_anthropic_chain cfg (some (.str "")) = create_anthropic_chain cfg none :=
  ⟨rfl, rfl, rfl, rfl, rfl, rfl⟩

theorem c10_empty_model_default_witness :
    cacheKey ModelProvider.AUTO (some (.str "")) = cacheKey ModelProvider.AUTO none :=
  (c10_empty_model_default (initService envNone) ModelProvider.AUTO (setupConfig envNone)).1

/-- C3.  A JSON chat request whose body lacks the prompt key, or whose
prompt value is a string made only of whitespace (the empty string
included), gets a 400 response whose body carries a non-empty error
message. -/
theorem c3_empty_prompt_400 (svc : AIService) (oracle : ChainOracle) (req : ChatRequest)
    (hjson : req.is_json = true)
    (hp : req.body.lookup "prompt" = none ∨
          ∃ s, req.body.lookup "prompt" = some (.str s) ∧ s.toList.all pyIsSpace = true) :
    (chat svc oracle req).1.statusCode = 400 ∧
    ∃ e, (chat svc oracle req).1.body.lookup "error" = some (.str e) ∧ e ≠ "" := by
  rcases hp with hnone | ⟨s, hsome, hspace⟩
  · simp [chat, chatTry, hjson, hnone, mk400, errBody]
  · have hs : pyStrip s = "" := pyStrip_of_all_space hspace
    simp [chat, chatTry, hjson, hsome, jvalStrip, hs, mk400, errBody]

theorem c3_empty_prompt_400_witness :
    (chat (initService envFull) oracleOk
        { is_json := true, body := [("prompt", .str "  "), ("model", .str "auto")] }).1.statusCode
      = 400 :=
  (c3_empty_prompt_400 (initService envFull) oracleOk
    { is_json := true, body := [("prompt", .str "  "), ("model", .str "auto")] }
    rfl (Or.inr ⟨"  ", rfl, by decide⟩)).1

/-- C4, counterexample.  The request with body prompt "hi", model "AUTO"
has a model value that is a string outside the set of accepted provider
strings, yet (with a reachable provider) the endpoint answers 200, not
400, because the route lowercases the value before checking membership. -/
theorem c4_uppercase_model_counterexample :
    (chat (initService envFull) oracleOk reqUpperModel).1.statusCode = 200 := rfl

/-- C4, amended.  A JSON chat request whose prompt value, when present,
is a string, and whose model value is a string whose lowercasing lies
outside the accepted set, gets a 400 response. -/
theorem c4_invalid_model_400 (svc : AIService) (oracle : ChainOracle) (req : ChatRequest)
    (hjson : req.is_json = true)
    (hp : ∀ v, req.body.lookup "prompt" = some v → ∃ s, v = JVal.str s)
    (hm : ∃ s, req.body.lookup "model" = some (.str s) ∧
          validProviders.contains (pyLower s) = false) :
    (chat svc oracle req).1.statusCode = 400 := by
  obtain ⟨m, hmeq, hmbad⟩ := hm
  cases hplook : req.body.lookup "prompt" with
  | none => simp [chat, chatTry, hjson, hplook, mk400, errBody]
  | some v =>
    obtain ⟨s, rfl⟩ := hp v hplook
    by_cases hs : pyStrip s = ""
    · simp [chat, chatTry, hjson, hplook, jvalStrip, hs, mk400, errBody]
    · have hmem : pyLower m ∉ validProviders := by simpa using hmbad
      simp [chat, chatTry, hjson, hplook, jvalStrip, hs, hmeq, jvalLower, hmem, mk400, errBody]

theorem c4_invalid_model_400_witness :
    (chat (initService envFull) oracleOk
        { is_json := true, body := [("prompt", .str "hi"), ("model", .str "xyz")] }).1.statusCode
      = 400 :=
  c4_invalid_model_400 (initService envFull) oracleOk
    { is_json := true, body := [("prompt", .str "hi"), ("model", .str "xyz")] }
    rfl
    (fun v h => ⟨"hi", by injection h with h2; exact h2.symm⟩)
    ⟨"xyz", rfl, by decide⟩

theorem lookup_cons_self (key : String) (c : Chain) (l : List (String × Chain)) :
    List.lookup key ((key, c) :: l) = some c := by
  simp [List.lookup]

theorem lookup_cons_preserve {k key : String} {c c0 : Chain} {l : List (String × Chain)}
    (hl : l.lookup key = none) (hk : l.lookup k = some c0) :
    List.lookup k ((key, c) :: l) = some c0 := by
  have hne : (k == key) = false := by
    cases h2 : k == key with
    | true =>
      exact absurd (eq_of_beq h2 ▸ hk) (by rw [hl]; intro h3; cases h3)
    | false => rfl
  simp [List.lookup, hne, hk]

/-- C6.  invoke_model invokes the underlying chain at most once, and any
failure (chain construction or provider call) surfaces as a single raised
message that wraps the original failure text with the troubleshooting
text of the selected provider; the three troubleshooting texts are
pairwise distinct. -/
theorem c6_invoke_model_wrapping (svc : AIService) (prompt : String)
    (provider : ModelProvider) (model : Option JVal) (oracle : ChainOracle) :
    (invoke_model svc prompt provider model oracle).invocations ≤ 1 ∧
    (∀ e, get_chain svc provider model = .error e →
        (invoke_model svc prompt provider model oracle).result
          = .error (wrapMsg provider e.msg) ∧
        (invoke_model svc prompt provider model oracle).invocations = 0) ∧
    (∀ c svc2, get_chain svc provider model = .ok (c, svc2) →
        (invoke_model svc prompt provider model oracle).invocations = 1 ∧
        (∀ e, oracle c prompt = .error e →
            (invoke_model svc prompt provider model oracle).result
              = .error (wrapMsg provider e)) ∧
        (∀ r, oracle c prompt = .ok r →
            (invoke_model svc prompt provider model oracle).result
              = .ok (respToStr r))) ∧
    (∀ m, (invoke_model svc prompt provider model oracle).result = .error m →
        ∃ orig, m = "Error with " ++ provider.value ++ ": " ++ orig
                      ++ troubleshooting provider) ∧
    troubleshooting .AUTO ≠ troubleshooting .GPT ∧
    troubleshooting .AUTO ≠ troubleshooting .CLAUDE ∧
    troubleshooting .GPT ≠ troubleshooting .CLAUDE := by
  refine ⟨?_, ?_, ?_, ?_, by decide, by decide, by decide⟩
  · cases hg : get_chain svc provider model with
    | error e0 => simp [invoke_model, hg]
    | ok pr =>
      obtain ⟨c0, svc0⟩ := pr
      cases ho : oracle c0 prompt <;> simp [invoke_model, hg, ho]
  · intro e he
    simp [invoke_model, he]
  · intro c svc2 h
    refine ⟨?_, ?_, ?_⟩
    · cases ho : oracle c prompt <;> simp [invoke_model, h, ho]
    · intro e ho; simp [invoke_model, h, ho]
    · intro r ho; simp [invoke_model, h, ho]
  · intro m hm
    cases hg : get_chain svc provider model with
    | error e0 =>
      simp [invoke_model, hg] at hm
      exact ⟨e0.msg, by rw [← hm]; rfl⟩
    | ok pr =>
      obtain ⟨c0, svc0⟩ := pr
      cases ho : oracle c0 prompt with
      | error e1 =>
        simp [invoke_model, hg, ho] at hm
        exact ⟨e1, by rw [← hm]; rfl⟩
      | ok r1 =>
        simp [invoke_model, hg, ho] at hm

theorem c6_invoke_model_wrapping_witness :
    (invoke_model svcFull "hi" ModelProvider.AUTO none oracleOk).invocations ≤ 1 :=
  (c6_invoke_model_wrapping svcFull "hi" ModelProvider.AUTO none oracleOk).1

/-- C7.  get_chain is a construct-once cache: a key already present is
answered from the mapping with the state unchanged; a successful call
stores the constructed chain under its key without touching any existing
entry, and every later call with the same provider and model returns the
stored chain with the state unchanged. -/
theorem c7_get_chain_cache (svc : AIService) (provider : ModelProvider) (model : Option JVal) :
    (∀ c, svc.chains.lookup (cacheKey provider model) = some c →
        get_chain svc provider model = .ok (c, svc)) ∧
    (∀ c svc2, get_chain svc provider model = .ok (c, svc2) →
        svc2.chains.lookup (cacheKey provider model) = some c ∧
        svc2.config = svc.config ∧
        (∀ k c0, svc.chains.lookup k = some c0 → svc2.chains.lookup k = some c0) ∧
        get_chain svc2 provider model = .ok (c, svc2)) := by
  constructor
  · intro c h
    simp [get_chain, h]
  · intro c svc2 h
    simp only [get_chain] at h
    cases hl : svc.chains.lookup (cacheKey provider model) with
    | some c1 =>
      rw [hl] at h
      simp only [Except.ok.injEq, Prod.mk.injEq] at h
      obtain ⟨rfl, rfl⟩ := h
      exact ⟨hl, rfl, fun k c0 hk => hk, by simp [get_chain, hl]⟩
    | none =>
      rw [hl] at h
      cases provider with
      | AUTO =>
        simp only [Except.ok.injEq, Prod.mk.injEq] at h
        obtain ⟨rfl, rfl⟩ := h
        refine ⟨lookup_cons_self _ _ _, rfl,
          fun k c0 hk => lookup_cons_preserve hl hk, ?_⟩
        simp [get_chain, lookup_cons_self]
      | GPT =>
        cases hc : create_openai_chain svc.config model with
        | error e => rw [hc] at h; cases h
        | ok c1 =>
          rw [hc] at h
          simp only [Except.ok.injEq, Prod.mk.injEq] at h
          obtain ⟨rfl, rfl⟩ := h
          refine ⟨lookup_cons_self _ _ _, rfl,
            fun k c0 hk => lookup_cons_preserve hl hk, ?_⟩
          simp [get_chain, lookup_cons_self]
      | CLAUDE =>
        cases hc : create_anthropic_chain svc.config model with
        | error e => rw [hc] at h; cases h
        | ok c1 =>
          rw [hc] at h
          simp only [Except.ok.injEq, Prod.mk.injEq] at h
          obtain ⟨rfl, rfl⟩ := h
          refine ⟨lookup_cons_self _ _ _, rfl,
            fun k c0 hk => lookup_cons_preserve hl hk, ?_⟩
          simp [get_chain, lookup_cons_self]

theorem c7_get_chain_cache_witness :
    get_chain svcFullCached ModelProvider.AUTO none = .ok (autoChainFull, svcFullCached) :=
  (c7_get_chain_cache svcFullCached ModelProvider.AUTO none).1 autoChainFull rfl

end CG

namespace Taiga

/-- C8.  One iteration of the interactive loop either leaves the chat
history unchanged (keyboard interrupt, quit words, empty input) or
appends exactly one HumanMessage/AIMessage pair at the end: the user
input with the agent output on success, the user input with an error
text on failure (the user input being None when input() itself raised);
earlier entries are never modified or removed. -/
theorem c8_history_append_only (h : List Msg) (ev : LoopEvent) :
    ((loopStep h ev).1 = h ∨
      ∃ u a, (loopStep h ev).1 = h ++ [Msg.human u, Msg.ai a]) ∧
    (ev = .keyboardInterrupt → (loopStep h ev).1 = h) ∧
    (∀ m, ev = .inputRaise m →
        (loopStep h ev).1 = h ++ [Msg.human none, Msg.ai ("Got error: " ++ m)]) ∧
    (∀ s r, ev = .line s r → CG.pyStrip s = "" → (loopStep h ev).1 = h) ∧
    (∀ s r, ev = .line s r →
        quitWords.contains (CG.pyLower (CG.pyStrip s)) = true →
        (loopStep h ev).1 = h) ∧
    (∀ s out, ev = .line s (.ok out) → CG.pyStrip s ≠ "" →
        quitWords.contains (CG.pyLower (CG.pyStrip s)) = false →
        (loopStep h ev).1 = h ++ [Msg.human (some (CG.pyStrip s)), Msg.ai out]) ∧
    (∀ s e, ev = .line s (.error e) → CG.pyStrip s ≠ "" →
        quitWords.contains (CG.pyLower (CG.pyStrip s)) = false →
        (loopStep h ev).1
          = h ++ [Msg.human (some (CG.pyStrip s)), Msg.ai ("Got error: " ++ e)]) := by
  refine ⟨?_, ?_, ?_, ?_, ?_, ?_, ?_⟩
  · cases ev with
    | keyboardInterrupt => exact Or.inl rfl
    | inputRaise m => exact Or.inr ⟨none, "Got error: " ++ m, rfl⟩
    | line s res =>
      by_cases hq : CG.pyLower (CG.pyStrip s) ∈ quitWords
      · exact Or.inl (by simp [loopStep, hq])
      · by_cases he : CG.pyStrip s = ""
        · have hq0 : CG.pyLower "" ∉ quitWords := by decide
          exact Or.inl (by simp [loopStep, hq, he, hq0])
        · cases res with
          | ok out =>
            exact Or.inr ⟨some (CG.pyStrip s), out, by simp [loopStep, hq, he]⟩
          | error e =>
            exact Or.inr ⟨some (CG.pyStrip s), "Got error: " ++ e,
              by simp [loopStep, hq, he]⟩
  · intro hev; subst hev; rfl
  · intro m hev; subst hev; rfl
  · intro s r hev he; subst hev
    by_cases hq : CG.pyLower (CG.pyStrip s) ∈ quitWords
    · simp [loopStep, hq]
    · have hq0 : CG.pyLower "" ∉ quitWords := by decide
      simp [loopStep, hq, he, hq0]
  · intro s r hev hq; subst hev
    have hq2 : CG.pyLower (CG.pyStrip s) ∈ quitWords := by simpa using hq
    simp [loopStep, hq2]
  · intro s out hev he hq; subst hev
    have hq2 : CG.pyLower (CG.pyStrip s) ∉ quitWords := by simpa using hq
    simp [loopStep, hq2, he]
  · intro s e hev he hq; subst hev
    have hq2 : CG.pyLower (CG.pyStrip s) ∉ quitWords := by simpa using hq
    simp [loopStep, hq2, he]

theorem c8_history_append_only_witness :
    (loopStep [] (LoopEvent.line "hello" (Except.ok "done"))).1
      = [Msg.human (some "hello"), Msg.ai "done"] :=
  (c8_history_append_only [] (LoopEvent.line "hello" (Except.ok "done"))).2.2.2.2.2.1
    "hello" "done" rfl (by decide) (by decide)

end Taiga

namespace CG

theorem append_ne_empty_left (pre post : String) (h : pre.data ≠ []) :
    pre ++ post ≠ "" := by
  intro hh
  apply h
  have h2 : (pre ++ post).data = [] := congrArg String.data hh
  rw [String.data_append] at h2
  exact (List.append_eq_nil.mp h2).1

/-- C9, counterexample.  The body with only a numeric model value and no
prompt key contains a model value that is not a string, yet the endpoint
answers 400 (the earlier prompt check fires first), not 500. -/
theorem c9_nonstring_model_counterexample :
    (chat (initService envFull) oracleOk reqNumModelOnly).1.statusCode = 400 := rfl

/-- C9, amended.  A JSON chat request whose prompt value is present but
not a string gets 500 (the .strip() call raises and only the generic
handler catches it); likewise, when the prompt is a string with
non-empty strip and the model value is present but not a string, the
.lower() call raises and the endpoint answers 500.  When the prompt
validation itself already fails (missing or empty prompt), the endpoint
answers 400 even if the model value is not a string. -/
theorem c9_nonstring_500 (svc : AIService) (oracle : ChainOracle) (req : ChatRequest)
    (hjson : req.is_json = true) :
    ((∃ v, req.body.lookup "prompt" = some v ∧ ∀ s, v ≠ JVal.str s) →
        (chat svc oracle req).1.statusCode = 500) ∧
    ((∃ ps, req.body.lookup "prompt" = some (.str ps) ∧ pyStrip ps ≠ "") →
        (∃ v, req.body.lookup "model" = some v ∧ ∀ s, v ≠ JVal.str s) →
        (chat svc oracle req).1.statusCode = 500) := by
  constructor
  · rintro ⟨v, hv, hns⟩
    cases v with
    | str s => exact absurd rfl (hns s)
    | num n => simp [chat, chatTry, hjson, hv, jvalStrip, errBody]
    | bool b => simp [chat, chatTry, hjson, hv, jvalStrip, errBody]
    | null => simp [chat, chatTry, hjson, hv, jvalStrip, errBody]
  · rintro ⟨ps, hps, hne⟩ ⟨v, hv, hns⟩
    cases v with
    | str s => exact absurd rfl (hns s)
    | num n => simp [chat, chatTry, hjson, hps, jvalStrip, hne, hv, jvalLower, errBody]
    | bool b => simp [chat, chatTry, hjson, hps, jvalStrip, hne, hv, jvalLower, errBody]
    | null => simp [chat, chatTry, hjson, hps, jvalStrip, hne, hv, jvalLower, errBody]

theorem c9_nonstring_500_witness :
    (chat svcFull oracleOk reqNumPrompt).1.statusCode = 500 :=
  (c9_nonstring_500 svcFull oracleOk reqNumPrompt rfl).1
    ⟨.num 42, rfl, fun s h => by cases h⟩

/-- C5.  A JSON chat request with a non-empty string prompt and a model
string selecting gpt or claude, in a process whose corresponding API key
environment variable is unset (service configured from that environment,
no chain cached for the key), gets an error payload whose error string
mentions the missing API key variable by name (the status code is 500,
as the ValueError is re-raised as a plain Exception inside invoke_model). -/
theorem c5_missing_key_mentions_var (env : Env) (svc : AIService) (oracle : ChainOracle)
    (req : ChatRequest) (p : ModelProvider)
    (hcfg : svc.config = setupConfig env)
    (hjson : req.is_json = true)
    (hp : ∃ s, req.body.lookup "prompt" = some (.str s) ∧ pyStrip s ≠ "")
    (hm : ∃ s, req.body.lookup "model" = some (.str s) ∧ pyLower s = p.value)
    (hpa : p ≠ ModelProvider.AUTO)
    (hkey : envKey env p = none)
    (hmiss : svc.chains.lookup (cacheKey p (pyGet req.body "specific_model")) = none) :
    (chat svc oracle req).1.statusCode = 500 ∧
    ∃ e pre post, (chat svc oracle req).1.body.lookup "error" = some (.str e) ∧
      e = pre ++ missingKeyName p ++ post := by
  obtain ⟨s, hs, hsne⟩ := hp
  obtain ⟨m, hmm, hml⟩ := hm
  cases p with
  | AUTO => exact absurd rfl hpa
  | GPT =>
    have hkeyn : env.OPENAI_API_KEY = none := hkey
    have hmem : pyLower m ∈ validProviders := by rw [hml]; decide
    have hred : parseModelProvider (pyLower "gpt") = some ModelProvider.GPT := by decide
    have hchain : get_chain svc ModelProvider.GPT (pyGet req.body "specific_model")
        = .error (.valueError "OpenAI API key not configured. Please set OPENAI_API_KEY environment variable.") := by
      simp [get_chain, hmiss, create_openai_chain, hcfg, setupConfig, hkeyn, pyTruthy]
    have hai : get_ai_response svc oracle (pyStrip s) (ModelProvider.GPT).value
        (pyGet req.body "specific_model")
        = (.error (.exception (wrapMsg ModelProvider.GPT
            "OpenAI API key not configured. Please set OPENAI_API_KEY environment variable.")), svc) := by
      simp [get_ai_response, hred, invoke_model, hchain, ModelProvider.value, PyErr.msg]
    have hmem2 : ModelProvider.GPT.value ∈ validProviders := by decide
    refine ⟨?_, ?_⟩
    · simp [chat, chatTry, hjson, hs, jvalStrip, hsne, hmm, jvalLower, hml, hmem2, hai, PyErr.msg]
    · refine ⟨"Failed to process chat request: " ++ wrapMsg ModelProvider.GPT
          "OpenAI API key not configured. Please set OPENAI_API_KEY environment variable.",
        "Failed to process chat request: Error with gpt: OpenAI API key not configured. Please set ",
        " environment variable." ++ troubleshooting ModelProvider.GPT, ?_, ?_⟩
      · simp [chat, chatTry, hjson, hs, jvalStrip, hsne, hmm, jvalLower, hml, hmem2, hai, errBody, PyErr.msg]
      · rfl
  | CLAUDE =>
    have hkeyn : env.ANTHROPIC_API_KEY = none := hkey
    have hmem : pyLower m ∈ validProviders := by rw [hml]; decide
    have hred : parseModelProvider (pyLower "claude") = some ModelProvider.CLAUDE := by decide
    have hchain : get_chain svc ModelProvider.CLAUDE (pyGet req.body "specific_model")
        = .error (.valueError "Anthropic API key not configured. Please set ANTHROPIC_API_KEY environment variable.") := by
      simp [get_chain, hmiss, create_anthropic_chain, hcfg, setupConfig, hkeyn, pyTruthy]
    have hai : get_ai_response svc oracle (pyStrip s) (ModelProvider.CLAUDE).value
        (pyGet req.body "specific_model")
        = (.error (.exception (wrapMsg ModelProvider.CLAUDE
            "Anthropic API key not configured. Please set ANTHROPIC_API_KEY environment variable.")), svc) := by
      simp [get_ai_response, hred, invoke_model, hchain, ModelProvider.value, PyErr.msg]
    have hmem2 : ModelProvider.CLAUDE.value ∈ validProviders := by decide
    refine ⟨?_, ?_⟩
    · simp [chat, chatTry, hjson, hs, jvalStrip, hsne, hmm, jvalLower, hml, hmem2, hai, PyErr.msg]
    · refine ⟨"Failed to process chat request: " ++ wrapMsg ModelProvider.CLAUDE
          "Anthropic API key not configured. Please set ANTHROPIC_API_KEY environment variable.",
        "Failed to process chat request: Error with claude: Anthropic API key not configured. Please set ",
        " environment variable." ++ troubleshooting ModelProvider.CLAUDE, ?_, ?_⟩
      · simp [chat, chatTry, hjson, hs, jvalStrip, hsne, hmm, jvalLower, hml, hmem2, hai, errBody, PyErr.msg]
      · rfl

theorem c5_missing_key_mentions_var_witness :
    (chat (initService envNone) oracleOk reqGpt).1.statusCode = 500 :=
  (c5_missing_key_mentions_var envNone (initService envNone) oracleOk reqGpt
    ModelProvider.GPT rfl rfl
    ⟨"hi", rfl, by decide⟩ ⟨"gpt", rfl, by decide⟩
    (by intro h; cases h) rfl rfl).1

end CG

namespace CG

/-- C1, counterexample.  The JSON body with a numeric prompt and model
"auto" fails the validation described by the claim (its prompt is not a
non-empty string), yet the endpoint answers 500, not 400: .strip() on the
number raises and only the generic Exception handler catches it. -/
theorem c1_nonstring_prompt_counterexample :
    (chat (initService envFull) oracleOk reqNumPrompt).1.statusCode = 500 := rfl

/-- C1, amended.  For JSON chat requests whose prompt and model values,
where present, are strings: if validation fails the endpoint answers 400
with a non-empty error and an error status; if validation passes, a
successful provider call yields 200 with the response, model_used,
specific_model and status keys, and a failing provider call (chain
construction included) yields 500 with a non-empty error and an error
status.  Requests carrying a non-string prompt or model value instead
reach the generic handler and answer 500. -/
theorem c1_chat_contract (svc : AIService) (oracle : ChainOracle) (req : ChatRequest)
    (hjson : req.is_json = true)
    (hp : ∀ v, req.body.lookup "prompt" = some v → ∃ s, v = JVal.str s)
    (hm : ∀ v, req.body.lookup "model" = some v → ∃ s, v = JVal.str s) :
    (¬ validBody req.body →
        (chat svc oracle req).1.statusCode = 400 ∧
        (∃ e, (chat svc oracle req).1.body.lookup "error" = some (.str e) ∧ e ≠ "") ∧
        (chat svc oracle req).1.body.lookup "status" = some (.str "error")) ∧
    (validBody req.body →
        (∀ r svc2, providerOutcome svc oracle req.body = (.ok r, svc2) →
            (chat svc oracle req).1.statusCode = 200 ∧
            (chat svc oracle req).1.body.lookup "response" = some (.str r) ∧
            (∃ mu, (chat svc oracle req).1.body.lookup "model_used" = some (.str mu)) ∧
            (∃ sm, (chat svc oracle req).1.body.lookup "specific_model" = some sm) ∧
            (chat svc oracle req).1.body.lookup "status" = some (.str "success")) ∧
        (∀ err svc2, providerOutcome svc oracle req.body = (.error err, svc2) →
            (chat svc oracle req).1.statusCode = 500 ∧
            (∃ e, (chat svc oracle req).1.body.lookup "error" = some (.str e) ∧ e ≠ "") ∧
            (chat svc oracle req).1.body.lookup "status" = some (.str "error"))) := by
  constructor
  · intro hnv
    cases hpl : req.body.lookup "prompt" with
    | none => simp [chat, chatTry, hjson, hpl, mk400, errBody] <;> decide
    | some v =>
      obtain ⟨s, rfl⟩ := hp v hpl
      by_cases hse : pyStrip s = ""
      · simp [chat, chatTry, hjson, hpl, jvalStrip, hse, mk400, errBody] <;> decide
      · cases hml : req.body.lookup "model" with
        | none =>
          simp [chat, chatTry, hjson, hpl, jvalStrip, hse, hml, mk400, errBody] <;> decide
        | some w =>
          obtain ⟨m, rfl⟩ := hm w hml
          have hc : pyLower m ∉ validProviders := by
            by_contra hcc
            exact hnv ⟨⟨s, hpl, hse⟩, ⟨m, hml, by simpa using hcc⟩⟩
          simp [chat, chatTry, hjson, hpl, jvalStrip, hse, hml, jvalLower, hc, mk400,
            errBody] <;> decide
  · intro hv
    obtain ⟨⟨s, hpl, hse⟩, ⟨m, hml, hmc⟩⟩ := hv
    have hmem : pyLower m ∈ validProviders := by simpa using hmc
    have hcases : pyLower m = "auto" ∨ pyLower m = "gpt" ∨ pyLower m = "claude" := by
      simpa [validProviders] using hmem
    constructor
    · intro r svc2 hpo
      unfold providerOutcome at hpo
      simp only [hpl, hml] at hpo
      simp [chat, chatTry, hjson, hpl, jvalStrip, hse, hml, jvalLower, hmem, hpo, errBody,
        List.lookup]
    · intro err svc2 hpo
      unfold providerOutcome at hpo
      simp only [hpl, hml] at hpo
      have hparse : ∃ p, parseModelProvider (pyLower (pyLower m)) = some p := by
        rcases hcases with h | h | h
        · rw [h]; exact ⟨ModelProvider.AUTO, by decide⟩
        · rw [h]; exact ⟨ModelProvider.GPT, by decide⟩
        · rw [h]; exact ⟨ModelProvider.CLAUDE, by decide⟩
      obtain ⟨p, hparse⟩ := hparse
      have hex : ∃ msg, err = PyErr.exception msg := by
        unfold get_ai_response at hpo
        simp only [hparse] at hpo
        cases hr : (invoke_model svc (pyStrip s) p (pyGet req.body "specific_model") oracle).result with
        | error mm =>
          simp only [hr, Prod.mk.injEq, Except.error.injEq] at hpo
          exact ⟨mm, hpo.1.symm⟩
        | ok ss =>
          simp only [hr] at hpo
          simp at hpo
      obtain ⟨msg, rfl⟩ := hex
      refine ⟨?_, ⟨"Failed to process chat request: " ++ msg, ?_, ?_⟩, ?_⟩
      · simp [chat, chatTry, hjson, hpl, jvalStrip, hse, hml, jvalLower, hmem, hpo, errBody,
          PyErr.msg, List.lookup]
      · simp [chat, chatTry, hjson, hpl, jvalStrip, hse, hml, jvalLower, hmem, hpo, errBody,
          PyErr.msg, List.lookup]
      · exact append_ne_empty_left _ _ (by decide)
      · simp [chat, chatTry, hjson, hpl, jvalStrip, hse, hml, jvalLower, hmem, hpo, errBody,
          PyErr.msg, List.lookup]

theorem c1_chat_contract_witness :
    (chat svcFull oracleOk reqAuto).1.statusCode = 200 := by
  have h := c1_chat_contract svcFull oracleOk reqAuto rfl
    (fun v hv => ⟨"hi", (Option.some.inj hv).symm⟩)
    (fun v hv => ⟨"auto", (Option.some.inj hv).symm⟩)
  have hv : validBody reqAuto.body :=
    ⟨⟨"hi", rfl, by decide⟩, ⟨"auto", rfl, by decide⟩⟩
  exact ((h.2 hv).1 "hello" (providerOutcome svcFull oracleOk reqAuto.body).2 rfl).1

end CG
